import Mathlib

/-!
Shallow embedding of `src/shell_pfs.c` (STM Shell demo pseudo-file-system).

The file contains the command functions (`command_cnt`, `command_led_toggle`,
`command_load`, `command_flash`) and the three command blocks (`root_block`,
`level_1_block`, `level_2_block`).

Modelling conventions:
* C `int` / `long long` become `Int` (the demo never approaches the 32/64-bit
  ranges: counters count up from 0, delays count down from a constant).
* The shell globals declared in `shell.h` (`shell_fp`, `shell_state.command_fp`,
  the output buffer, the DMA `busy` flag) are modelled by the `Shell` structure;
  the command bodies only ever assign `shell_state_output` to `shell_fp` and
  `0` (here `none`) to `command_fp`.
* The GPIO pin driven by the `LED(a)` macro (`HAL_GPIO_WritePin`) and by
  `HAL_GPIO_TogglePin` is modelled by the `pin : Bool` field together with an
  event log (`List PinOp`) that records every write/toggle issued.
* `sscanf (shell_state.input, "flash %i", &arg)` is modelled by its result:
  a value `parsed : Option Int` which is `some v` when `sscanf` returns 1
  having stored `v` into `arg`, and `none` when it returns 0 or EOF
  (in which case `arg` keeps its previous value).
* `sprintf (shell_state.output, ...)` is modelled by recording the integer
  counter argument that was formatted into the output buffer (`out` field);
  the surrounding literal text carries no information the claims mention.
-/

/-- Values the global function pointer `shell_fp` takes inside this file:
the commands only ever assign `shell_state_output` to it. -/
inductive ShellFnPtr where
  | shell_state_output
  | other
deriving DecidableEq

/-- The command functions defined in `shell_pfs.c`, used as the possible
values of the function pointer `shell_state.command_fp`. -/
inductive CmdFn where
  | command_cnt
  | command_led_toggle
  | command_load
  | command_flash
deriving DecidableEq

/-- Pin operations issued to the HAL, recorded as an event log. -/
inductive PinOp where
  | write (b : Bool)
  | toggle
deriving DecidableEq

/-- Modelled from the spec: the shell globals of `shell.h`/`shell.c` (not in
`src/`) that `shell_pfs.c` reads and writes — the phase pointer `shell_fp`,
the active command pointer `shell_state.command_fp` (§3 ActiveCommand,
`none` models the null pointer), the output buffer (§6; restricted to the
formatted counter value), the DMA busy flag `shell_state.busy`, and the LED
pin state driven through the HAL. -/
structure Shell where
  shell_fp : ShellFnPtr
  command_fp : Option CmdFn
  out : Int
  busy : Int
  pin : Bool
deriving DecidableEq

/-! ## command_flash (lines 220-251, macro version, USING_STATE_MACHINE_MACROS) -/

/-- The static locals of `command_flash`: `state`, `arg`, `delay`. -/
structure FlashSt where
  state : Int
  arg : Int
  delay : Int
deriving DecidableEq

/-- `const int max_delay = 10000000;` (line 224). -/
def max_delay : Int := 10000000

/-- One call to `command_flash` (lines 220-251).  `maxDelay` is the value the
source fixes as `max_delay`; it is a parameter so that properties quantified
over the delay constant can be stated.  `parsed` models the `sscanf` result
on `shell_state.input` (see file header).  Returns the updated statics, the
updated shell globals, and the list of pin operations issued during the call. -/
def command_flash (maxDelay : Int) (parsed : Option Int) (st : FlashSt) (g : Shell) :
    FlashSt × Shell × List PinOp :=
  if st.state = 0 then
    -- STATE 0: rv = sscanf(...); state = ((rv == 1) && (arg > 0)) ? 1 : 6
    match parsed with
    | some v => (⟨if v > 0 then 1 else 6, v, st.delay⟩, g, [])
    | none => (⟨6, st.arg, st.delay⟩, g, [])
  else if st.state = 1 then
    -- STATE 1: LED(1); delay = max_delay; state++
    (⟨2, st.arg, maxDelay⟩, { g with pin := true }, [PinOp.write true])
  else if st.state = 2 then
    -- STATE 2: delay--; state = (delay > 0) ? 2 : 3
    (⟨if st.delay - 1 > 0 then 2 else 3, st.arg, st.delay - 1⟩, g, [])
  else if st.state = 3 then
    -- STATE 3: LED(0); delay = max_delay; state++
    (⟨4, st.arg, maxDelay⟩, { g with pin := false }, [PinOp.write false])
  else if st.state = 4 then
    -- STATE 4: delay--; state = (delay > 0) ? 4 : 5
    (⟨if st.delay - 1 > 0 then 4 else 5, st.arg, st.delay - 1⟩, g, [])
  else if st.state = 5 then
    -- STATE 5: arg--; state = (arg == 0) ? 6 : 1
    (⟨if st.arg - 1 = 0 then 6 else 1, st.arg - 1, st.delay⟩, g, [])
  else if st.state = 6 then
    -- STATE 6: RETURN  (state = 0; shell_fp = shell_state_output; command_fp = 0)
    (⟨0, st.arg, st.delay⟩,
     { g with shell_fp := ShellFnPtr.shell_state_output, command_fp := none }, [])
  else
    -- no matching case: the switch falls through and nothing happens
    (st, g, [])

/-- One scheduling tick of `command_flash` acting on a configuration that
carries the statics, the shell globals and the accumulated pin-event log. -/
def flash_tick (maxDelay : Int) (parsed : Option Int)
    (c : FlashSt × Shell × List PinOp) : FlashSt × Shell × List PinOp :=
  ((command_flash maxDelay parsed c.1 c.2.1).1,
   (command_flash maxDelay parsed c.1 c.2.1).2.1,
   c.2.2 ++ (command_flash maxDelay parsed c.1 c.2.1).2.2)

/-- Number of ticks one delay phase (state 2 or state 4) consumes when entered
with `delay = D`: `D` ticks when `D ≥ 1`, one tick otherwise. -/
def phaseTicks (D : Int) : Nat := max D.toNat 1

/-- The pin-write log produced by `n` on/off flashes: `LED(1)` then `LED(0)`,
`n` times. -/
def ledPairs : Nat → List PinOp
  | 0 => []
  | n + 1 => PinOp.write true :: PinOp.write false :: ledPairs n

/-- `command_flash`, started on statics `st` and globals `g` with an empty
event log, signals completion exactly at tick `n`: after `n` ticks the active
command pointer is cleared, and at every earlier tick it is still set. -/
def FlashCompletesAt (maxDelay : Int) (parsed : Option Int)
    (st : FlashSt) (g : Shell) (n : Nat) : Prop :=
  ((flash_tick maxDelay parsed)^[n] (st, g, [])).2.1.command_fp = none ∧
  ∀ m < n, ((flash_tick maxDelay parsed)^[m] (st, g, [])).2.1.command_fp ≠ none

/-! ### Single-tick equations for `command_flash` -/

theorem flash_tick0_some_pos (D v a d : Int) (p? : v > 0) (g : Shell) (L : List PinOp) :
    flash_tick D (some v) (⟨0, a, d⟩, g, L) = (⟨1, v, d⟩, g, L) := by
  simp [flash_tick, command_flash, p?]

theorem flash_tick0_some_nonpos (D v a d : Int) (hv : ¬ v > 0) (g : Shell) (L : List PinOp) :
    flash_tick D (some v) (⟨0, a, d⟩, g, L) = (⟨6, v, d⟩, g, L) := by
  simp [flash_tick, command_flash, hv]

theorem flash_tick0_none (D a d : Int) (g : Shell) (L : List PinOp) :
    flash_tick D none (⟨0, a, d⟩, g, L) = (⟨6, a, d⟩, g, L) := by
  simp [flash_tick, command_flash]

theorem flash_tick1 (D : Int) (p : Option Int) (a d : Int) (g : Shell) (L : List PinOp) :
    flash_tick D p (⟨1, a, d⟩, g, L) =
      (⟨2, a, D⟩, { g with pin := true }, L ++ [PinOp.write true]) := by
  simp [flash_tick, command_flash]

theorem flash_tick2 (D : Int) (p : Option Int) (a d : Int) (g : Shell) (L : List PinOp) :
    flash_tick D p (⟨2, a, d⟩, g, L) =
      (⟨if d - 1 > 0 then 2 else 3, a, d - 1⟩, g, L) := by
  simp [flash_tick, command_flash]

theorem flash_tick3 (D : Int) (p : Option Int) (a d : Int) (g : Shell) (L : List PinOp) :
    flash_tick D p (⟨3, a, d⟩, g, L) =
      (⟨4, a, D⟩, { g with pin := false }, L ++ [PinOp.write false]) := by
  simp [flash_tick, command_flash]

theorem flash_tick4 (D : Int) (p : Option Int) (a d : Int) (g : Shell) (L : List PinOp) :
    flash_tick D p (⟨4, a, d⟩, g, L) =
      (⟨if d - 1 > 0 then 4 else 5, a, d - 1⟩, g, L) := by
  simp [flash_tick, command_flash]

theorem flash_tick5 (D : Int) (p : Option Int) (a d : Int) (g : Shell) (L : List PinOp) :
    flash_tick D p (⟨5, a, d⟩, g, L) =
      (⟨if a - 1 = 0 then 6 else 1, a - 1, d⟩, g, L) := by
  simp [flash_tick, command_flash]

theorem flash_tick6 (D : Int) (p : Option Int) (a d : Int) (g : Shell) (L : List PinOp) :
    flash_tick D p (⟨6, a, d⟩, g, L) =
      (⟨0, a, d⟩,
       { g with shell_fp := ShellFnPtr.shell_state_output, command_fp := none }, L) := by
  simp [flash_tick, command_flash]

/-! ### The delay self-loops (states 2 and 4) -/

theorem flash_loop2 (D : Int) (p : Option Int) :
    ∀ (k : Nat) (d a : Int) (g : Shell) (L : List PinOp), d.toNat = k + 1 →
      (flash_tick D p)^[k + 1] (⟨2, a, d⟩, g, L) = (⟨3, a, 0⟩, g, L) := by
  intro k
  induction k with
  | zero =>
    intro d a g L hd
    have h1 : d = 1 := by omega
    subst h1
    rw [Function.iterate_one, flash_tick2]
    norm_num
  | succ k ih =>
    intro d a g L hd
    have h1 : d = (k : Int) + 2 := by omega
    subst h1
    rw [Function.iterate_succ_apply, flash_tick2, if_pos (by omega : (k : Int) + 2 - 1 > 0)]
    exact ih ((k : Int) + 2 - 1) a g L (by omega)

theorem flash_loop4 (D : Int) (p : Option Int) :
    ∀ (k : Nat) (d a : Int) (g : Shell) (L : List PinOp), d.toNat = k + 1 →
      (flash_tick D p)^[k + 1] (⟨4, a, d⟩, g, L) = (⟨5, a, 0⟩, g, L) := by
  intro k
  induction k with
  | zero =>
    intro d a g L hd
    have h1 : d = 1 := by omega
    subst h1
    rw [Function.iterate_one, flash_tick4]
    norm_num
  | succ k ih =>
    intro d a g L hd
    have h1 : d = (k : Int) + 2 := by omega
    subst h1
    rw [Function.iterate_succ_apply, flash_tick4, if_pos (by omega : (k : Int) + 2 - 1 > 0)]
    exact ih ((k : Int) + 2 - 1) a g L (by omega)

theorem flash_phase2 (D : Int) (p : Option Int) (d a : Int) (g : Shell) (L : List PinOp) :
    ∃ d', (flash_tick D p)^[phaseTicks d] (⟨2, a, d⟩, g, L) = (⟨3, a, d'⟩, g, L) := by
  rcases le_or_lt d 0 with hd | hd
  · refine ⟨d - 1, ?_⟩
    have h1 : phaseTicks d = 1 := by unfold phaseTicks; omega
    rw [h1, Function.iterate_one, flash_tick2, if_neg (by omega : ¬ d - 1 > 0)]
  · refine ⟨0, ?_⟩
    have h1 : phaseTicks d = (d.toNat - 1) + 1 := by unfold phaseTicks; omega
    rw [h1]
    exact flash_loop2 D p (d.toNat - 1) d a g L (by omega)

theorem flash_phase4 (D : Int) (p : Option Int) (d a : Int) (g : Shell) (L : List PinOp) :
    ∃ d', (flash_tick D p)^[phaseTicks d] (⟨4, a, d⟩, g, L) = (⟨5, a, d'⟩, g, L) := by
  rcases le_or_lt d 0 with hd | hd
  · refine ⟨d - 1, ?_⟩
    have h1 : phaseTicks d = 1 := by unfold phaseTicks; omega
    rw [h1, Function.iterate_one, flash_tick4, if_neg (by omega : ¬ d - 1 > 0)]
  · refine ⟨0, ?_⟩
    have h1 : phaseTicks d = (d.toNat - 1) + 1 := by unfold phaseTicks; omega
    rw [h1]
    exact flash_loop4 D p (d.toNat - 1) d a g L (by omega)

/-! ### One full on/off flash iteration (states 1-5) -/

theorem flash_iter (D : Int) (p : Option Int) (a d : Int) (g : Shell) (L : List PinOp) :
    ∃ d', (flash_tick D p)^[2 * phaseTicks D + 3] (⟨1, a, d⟩, g, L) =
      (⟨if a - 1 = 0 then 6 else 1, a - 1, d'⟩, { g with pin := false },
       L ++ [PinOp.write true, PinOp.write false]) := by
  obtain ⟨d1, h1⟩ :=
    flash_phase2 D p D a { g with pin := true } (L ++ [PinOp.write true])
  obtain ⟨d2, h2⟩ :=
    flash_phase4 D p D a { { g with pin := true } with pin := false }
      ((L ++ [PinOp.write true]) ++ [PinOp.write false])
  refine ⟨d2, ?_⟩
  rw [show 2 * phaseTicks D + 3 = 1 + (phaseTicks D + (1 + (phaseTicks D + 1))) from by ring]
  simp only [Function.iterate_add_apply, Function.iterate_one]
  rw [flash_tick1, h1, flash_tick3, h2, flash_tick5]
  simp

/-! ### N consecutive flash iterations -/

theorem flash_flashes (D : Int) (p : Option Int) :
    ∀ (n : Nat), 0 < n → ∀ (d : Int) (g : Shell) (L : List PinOp),
      ∃ d', (flash_tick D p)^[n * (2 * phaseTicks D + 3)] (⟨1, (n : Int), d⟩, g, L) =
        (⟨6, 0, d'⟩, { g with pin := false }, L ++ ledPairs n) := by
  intro n
  induction n with
  | zero => omega
  | succ k ih =>
    intro _ d g L
    rcases Nat.eq_zero_or_pos k with hk | hk
    · subst hk
      obtain ⟨d', h⟩ := flash_iter D p 1 d g L
      refine ⟨d', ?_⟩
      norm_num at h ⊢
      rw [h]
      simp [ledPairs]
    · obtain ⟨d1, h1⟩ := flash_iter D p ((k + 1 : Nat) : Int) d g L
      rw [show ((k + 1 : Nat) : Int) - 1 = (k : Int) from by push_cast; ring] at h1
      rw [if_neg (by omega : ¬ (k : Int) = 0)] at h1
      obtain ⟨d2, h2⟩ :=
        ih hk d1 { g with pin := false } (L ++ [PinOp.write true, PinOp.write false])
      refine ⟨d2, ?_⟩
      rw [show (k + 1) * (2 * phaseTicks D + 3) =
            k * (2 * phaseTicks D + 3) + (2 * phaseTicks D + 3) from by ring]
      rw [Function.iterate_add_apply, h1, h2]
      simp [ledPairs]

/-! ### Full runs of `command_flash` from state 0 -/

theorem flash_run_to6 (D : Int) (N : Nat) (hN : 0 < N) (a0 d0 : Int) (g : Shell) :
    ∃ d', (flash_tick D (some (N : Int)))^[N * (2 * phaseTicks D + 3) + 1]
        (⟨0, a0, d0⟩, g, []) =
      (⟨6, 0, d'⟩, { g with pin := false }, ledPairs N) := by
  obtain ⟨d', h⟩ := flash_flashes D (some (N : Int)) N hN d0 g []
  refine ⟨d', ?_⟩
  rw [Function.iterate_add_apply, Function.iterate_one]
  rw [flash_tick0_some_pos D (N : Int) a0 d0 (by exact_mod_cast hN) g []]
  rw [h]
  simp

theorem flash_run_complete (D : Int) (N : Nat) (hN : 0 < N) (a0 d0 : Int) (g : Shell) :
    ∃ d', (flash_tick D (some (N : Int)))^[N * (2 * phaseTicks D + 3) + 2]
        (⟨0, a0, d0⟩, g, []) =
      (⟨0, 0, d'⟩,
       { g with shell_fp := ShellFnPtr.shell_state_output, command_fp := none,
                pin := false },
       ledPairs N) := by
  obtain ⟨d', h⟩ := flash_run_to6 D N hN a0 d0 g
  refine ⟨d', ?_⟩
  rw [show N * (2 * phaseTicks D + 3) + 2 = (N * (2 * phaseTicks D + 3) + 1) + 1 from rfl]
  rw [Function.iterate_succ_apply', h, flash_tick6]

/-! ### Once the active command pointer is cleared it stays cleared -/

theorem flash_tick_preserves_none (D : Int) (p : Option Int)
    (c : FlashSt × Shell × List PinOp) (h : c.2.1.command_fp = none) :
    (flash_tick D p c).2.1.command_fp = none := by
  obtain ⟨st, g, L⟩ := c
  simp only [flash_tick]
  unfold command_flash
  rcases p with _ | v <;> split_ifs <;> simp_all

theorem flash_iterate_preserves_none (D : Int) (p : Option Int)
    (c : FlashSt × Shell × List PinOp) (h : c.2.1.command_fp = none) :
    ∀ n, ((flash_tick D p)^[n] c).2.1.command_fp = none := by
  intro n
  induction n with
  | zero => simpa
  | succ n ih =>
    rw [Function.iterate_succ_apply']
    exact flash_tick_preserves_none D p _ ih

/-- The central termination fact about `command_flash`: started in state 0
with an active command pointer and an input that parses as a positive `N`,
it completes exactly at tick `N * (2 * phaseTicks D + 3) + 2`. -/
theorem flash_completes_general (D : Int) (N : Nat) (hN : 0 < N) (a0 d0 : Int)
    (g : Shell) (c : CmdFn) (hg : g.command_fp = some c) :
    FlashCompletesAt D (some (N : Int)) ⟨0, a0, d0⟩ g
      (N * (2 * phaseTicks D + 3) + 2) := by
  obtain ⟨d1, h1⟩ := flash_run_to6 D N hN a0 d0 g
  obtain ⟨d2, h2⟩ := flash_run_complete D N hN a0 d0 g
  constructor
  · rw [h2]
  · intro m hm hcon
    have habs := flash_iterate_preserves_none D (some (N : Int)) _ hcon
      (N * (2 * phaseTicks D + 3) + 1 - m)
    rw [← Function.iterate_add_apply] at habs
    rw [show (N * (2 * phaseTicks D + 3) + 1 - m) + m =
          N * (2 * phaseTicks D + 3) + 1 from by omega] at habs
    rw [h1] at habs
    simp [hg] at habs

/-- Uniqueness of the completion tick. -/
theorem flashCompletesAt_unique (D : Int) (p : Option Int) (st : FlashSt) (g : Shell)
    (n n' : Nat) (h : FlashCompletesAt D p st g n) (h' : FlashCompletesAt D p st g n') :
    n = n' := by
  rcases Nat.lt_trichotomy n n' with hlt | heq | hgt
  · exact absurd h.1 (h'.2 n hlt)
  · exact heq
  · exact absurd h'.1 (h.2 n' hgt)

/-- A concrete shell-global state with `command_flash` selected as the
active command, used to instantiate the theorems below. -/
def shell_demo : Shell :=
  ⟨ShellFnPtr.other, some CmdFn.command_flash, 0, 0, false⟩

/-- C1 (amended): starting `command_flash` in state 0 with an active command
pointer and input parsing as `flash N` (`N > 0`), repeated calls reach
completion (command_fp cleared, state reset to 0, shell_fp handed to the
output phase) after exactly `N * (2 * D + 3) + 2` ticks with `D = max_delay`:
the term beyond `2 * N * D` is `3 * N + 2`, linear in `N`, not a constant. -/
theorem C1_flash_termination (N : Nat) (hN : 0 < N) (a0 d0 : Int) (g : Shell)
    (c : CmdFn) (hg : g.command_fp = some c) :
    FlashCompletesAt max_delay (some (N : Int)) ⟨0, a0, d0⟩ g
      (N * (2 * max_delay.toNat + 3) + 2) ∧
    ∃ d', (flash_tick max_delay (some (N : Int)))^[N * (2 * max_delay.toNat + 3) + 2]
        (⟨0, a0, d0⟩, g, []) =
      (⟨0, 0, d'⟩, { g with shell_fp := ShellFnPtr.shell_state_output,
                              command_fp := none, pin := false }, ledPairs N) := by
  have hpt : phaseTicks max_delay = max_delay.toNat := by decide
  constructor
  · have h := flash_completes_general max_delay N hN a0 d0 g c hg
    rwa [hpt] at h
  · have h := flash_run_complete max_delay N hN a0 d0 g
    rwa [hpt] at h

/-- Witness for C1: the amended statement instantiated at `N = 1`. -/
theorem C1_flash_termination_witness :
    FlashCompletesAt max_delay (some ((1 : Nat) : Int)) ⟨0, 0, 0⟩ shell_demo
      (1 * (2 * max_delay.toNat + 3) + 2) ∧
    ∃ d', (flash_tick max_delay (some ((1 : Nat) : Int)))^[1 * (2 * max_delay.toNat + 3) + 2]
        (⟨0, 0, 0⟩, shell_demo, []) =
      (⟨0, 0, d'⟩, { shell_demo with shell_fp := ShellFnPtr.shell_state_output,
                                       command_fp := none, pin := false }, ledPairs 1) :=
  C1_flash_termination 1 (by decide) 0 0 shell_demo CmdFn.command_flash rfl

/-- Counterexample for C1 as stated: there is no constant `k` (independent of
`N`) such that `command_flash` completes after `N * 2 * max_delay + k` ticks
for every positive `N` — the actual completion tick is
`N * (2 * max_delay + 3) + 2`, whose distance from `2 * N * max_delay`
grows with `N`. -/
theorem C1_counterexample :
    ¬ ∃ k : Nat, ∀ N : Nat, 0 < N →
      FlashCompletesAt max_delay (some (N : Int)) ⟨0, 0, 0⟩ shell_demo
        (N * (2 * max_delay.toNat) + k) := by
  rintro ⟨k, hk⟩
  have hpt : phaseTicks max_delay = max_delay.toNat := by decide
  have e1 := flash_completes_general max_delay 1 (by norm_num) 0 0 shell_demo
    CmdFn.command_flash rfl
  have e2 := flash_completes_general max_delay 2 (by norm_num) 0 0 shell_demo
    CmdFn.command_flash rfl
  rw [hpt] at e1 e2
  have u1 := flashCompletesAt_unique _ _ _ _ _ _ (hk 1 (by norm_num)) e1
  have u2 := flashCompletesAt_unique _ _ _ _ _ _ (hk 2 (by norm_num)) e2
  omega

/-- C2: with input parsing as `flash 3` and an active command pointer,
`command_flash` runs to completion having issued exactly three on/off
pairs — `LED(1)` then `LED(0)`, three times, in that order — whatever the
value of the delay constant. -/
theorem C2_flash_three_pairs (D : Int) (a0 d0 : Int) (g : Shell) (c : CmdFn)
    (hg : g.command_fp = some c) :
    FlashCompletesAt D (some 3) ⟨0, a0, d0⟩ g (3 * (2 * phaseTicks D + 3) + 2) ∧
    ∃ d', (flash_tick D (some 3))^[3 * (2 * phaseTicks D + 3) + 2] (⟨0, a0, d0⟩, g, []) =
      (⟨0, 0, d'⟩, { g with shell_fp := ShellFnPtr.shell_state_output,
                              command_fp := none, pin := false },
       [PinOp.write true, PinOp.write false, PinOp.write true, PinOp.write false,
        PinOp.write true, PinOp.write false]) := by
  have h3 : ((3 : Nat) : Int) = (3 : Int) := by norm_num
  constructor
  · have h := flash_completes_general D 3 (by norm_num) a0 d0 g c hg
    rwa [h3] at h
  · have h := flash_run_complete D 3 (by norm_num) a0 d0 g
    rw [h3] at h
    simpa [ledPairs] using h

/-- Witness for C2 at delay constant 2. -/
theorem C2_flash_three_pairs_witness :
    FlashCompletesAt 2 (some 3) ⟨0, 0, 0⟩ shell_demo (3 * (2 * phaseTicks 2 + 3) + 2) ∧
    ∃ d', (flash_tick 2 (some 3))^[3 * (2 * phaseTicks 2 + 3) + 2] (⟨0, 0, 0⟩, shell_demo, []) =
      (⟨0, 0, d'⟩, { shell_demo with shell_fp := ShellFnPtr.shell_state_output,
                                       command_fp := none, pin := false },
       [PinOp.write true, PinOp.write false, PinOp.write true, PinOp.write false,
        PinOp.write true, PinOp.write false]) :=
  C2_flash_three_pairs 2 0 0 shell_demo CmdFn.command_flash rfl

/-- C5: when the input does not parse (`sscanf` returns no conversion) or
parses as the argument 0, `command_flash` goes from state 0 straight to the
exit state 6, completes at the second tick with the command pointer cleared
and `shell_fp` handed to the output phase, and never touches the LED pin
(empty pin-event log). -/
theorem C5_parse_failure (D : Int) (p : Option Int) (a0 d0 : Int) (g : Shell)
    (c : CmdFn) (hg : g.command_fp = some c) (hp : p = none ∨ p = some 0) :
    ((flash_tick D p)^[1] (⟨0, a0, d0⟩, g, [])).1.state = 6 ∧
    (∃ a', (flash_tick D p)^[2] (⟨0, a0, d0⟩, g, []) =
      (⟨0, a', d0⟩,
       { g with shell_fp := ShellFnPtr.shell_state_output, command_fp := none }, [])) ∧
    FlashCompletesAt D p ⟨0, a0, d0⟩ g 2 := by
  rcases hp with hp | hp <;> subst hp
  · have t1 : (flash_tick D none)^[1] (⟨0, a0, d0⟩, g, []) = (⟨6, a0, d0⟩, g, []) := by
      rw [Function.iterate_one, flash_tick0_none]
    have t2 : (flash_tick D none)^[2] (⟨0, a0, d0⟩, g, []) =
        (⟨0, a0, d0⟩,
         { g with shell_fp := ShellFnPtr.shell_state_output, command_fp := none }, []) := by
      rw [show (2 : Nat) = 1 + 1 from rfl, Function.iterate_add_apply, t1,
        Function.iterate_one, flash_tick6]
    refine ⟨by rw [t1], ⟨a0, t2⟩, by rw [t2], ?_⟩
    intro m hm
    interval_cases m
    · simp [hg]
    · rw [t1]; simp [hg]
  · have t1 : (flash_tick D (some 0))^[1] (⟨0, a0, d0⟩, g, []) = (⟨6, 0, d0⟩, g, []) := by
      rw [Function.iterate_one, flash_tick0_some_nonpos D 0 a0 d0 (by norm_num) g []]
    have t2 : (flash_tick D (some 0))^[2] (⟨0, a0, d0⟩, g, []) =
        (⟨0, 0, d0⟩,
         { g with shell_fp := ShellFnPtr.shell_state_output, command_fp := none }, []) := by
      rw [show (2 : Nat) = 1 + 1 from rfl, Function.iterate_add_apply, t1,
        Function.iterate_one, flash_tick6]
    refine ⟨by rw [t1], ⟨0, t2⟩, by rw [t2], ?_⟩
    intro m hm
    interval_cases m
    · simp [hg]
    · rw [t1]; simp [hg]

/-- Witness for C5: unparsable input (`sscanf` finds no number). -/
theorem C5_parse_failure_witness :
    ((flash_tick 7 none)^[1] (⟨0, 4, 9⟩, shell_demo, [])).1.state = 6 ∧
    (∃ a', (flash_tick 7 none)^[2] (⟨0, 4, 9⟩, shell_demo, []) =
      (⟨0, a', 9⟩,
       { shell_demo with shell_fp := ShellFnPtr.shell_state_output,
                          command_fp := none }, [])) ∧
    FlashCompletesAt 7 none ⟨0, 4, 9⟩ shell_demo 2 :=
  C5_parse_failure 7 none 4 9 shell_demo CmdFn.command_flash rfl (Or.inl rfl)

/-- C10: a negative parsed argument is treated exactly like a parse failure:
the `arg > 0` guard fails, state 0 transitions to the exit state 6, and the
command completes at the second tick without any pin operation. -/
theorem C10_negative_argument (D v a0 d0 : Int) (g : Shell) (c : CmdFn)
    (hg : g.command_fp = some c) (hv : v < 0) :
    ((flash_tick D (some v))^[1] (⟨0, a0, d0⟩, g, [])).1.state = 6 ∧
    (flash_tick D (some v))^[2] (⟨0, a0, d0⟩, g, []) =
      (⟨0, v, d0⟩, { g with shell_fp := ShellFnPtr.shell_state_output,
                              command_fp := none }, []) ∧
    FlashCompletesAt D (some v) ⟨0, a0, d0⟩ g 2 := by
  have t1 : (flash_tick D (some v))^[1] (⟨0, a0, d0⟩, g, []) = (⟨6, v, d0⟩, g, []) := by
    rw [Function.iterate_one, flash_tick0_some_nonpos D v a0 d0 (by omega) g []]
  have t2 : (flash_tick D (some v))^[2] (⟨0, a0, d0⟩, g, []) =
      (⟨0, v, d0⟩,
       { g with shell_fp := ShellFnPtr.shell_state_output, command_fp := none }, []) := by
    rw [show (2 : Nat) = 1 + 1 from rfl, Function.iterate_add_apply, t1,
      Function.iterate_one, flash_tick6]
  refine ⟨by rw [t1], t2, by rw [t2], ?_⟩
  intro m hm
  interval_cases m
  · simp [hg]
  · rw [t1]; simp [hg]

/-- Witness for C10 at argument `-1`. -/
theorem C10_negative_argument_witness :
    ((flash_tick 7 (some (-1)))^[1] (⟨0, 4, 9⟩, shell_demo, [])).1.state = 6 ∧
    (flash_tick 7 (some (-1)))^[2] (⟨0, 4, 9⟩, shell_demo, []) =
      (⟨0, -1, 9⟩, { shell_demo with shell_fp := ShellFnPtr.shell_state_output,
                                       command_fp := none }, []) ∧
    FlashCompletesAt 7 (some (-1)) ⟨0, 4, 9⟩ shell_demo 2 :=
  C10_negative_argument 7 (-1) 4 9 shell_demo CmdFn.command_flash rfl (by norm_num)

/-! ## command_cnt (lines 92-105, macro version) -/

/-- The static locals of `command_cnt`: `cnt` and the macro-introduced
`state`. -/
structure CntSt where
  cnt : Int
  state : Int
deriving DecidableEq

/-- One call to `command_cnt` (lines 92-105).  State 0 formats the current
counter into the output buffer and hands `shell_fp` to the output phase;
state 1 increments the counter and performs `RETURN`. -/
def command_cnt (st : CntSt) (g : Shell) : CntSt × Shell :=
  if st.state = 0 then
    -- STATE 0: sprintf(output, "\r\nCalled %i times", cnt); shell_fp = output; state = 1
    (⟨st.cnt, 1⟩, { g with out := st.cnt, shell_fp := ShellFnPtr.shell_state_output })
  else if st.state = 1 then
    -- STATE 1: cnt++; RETURN
    (⟨st.cnt + 1, 0⟩,
     { g with shell_fp := ShellFnPtr.shell_state_output, command_fp := none })
  else
    (st, g)

/-- One scheduling tick of `command_cnt`. -/
def cnt_tick (c : CntSt × Shell) : CntSt × Shell := command_cnt c.1 c.2

/-- C6: two consecutive full runs of `command_cnt` (each from state 0 to
completion, two ticks).  During each run the value put in the output buffer
at state 0 is the counter before that run's increment (which only happens in
state 1), each run bumps the counter by exactly 1, and the second run
reports exactly one more than the first. -/
theorem C6_cnt_two_runs (k : Int) (g1 g2 : Shell) (f1 f2 : CmdFn)
    (hg1 : g1.command_fp = some f1) (hg2 : g2.command_fp = some f2) :
    (cnt_tick^[1] (⟨k, 0⟩, g1)).2.out = k ∧
    (cnt_tick^[1] (⟨k, 0⟩, g1)).1.cnt = k ∧
    (cnt_tick^[1] (⟨k, 0⟩, g1)).2.command_fp = some f1 ∧
    cnt_tick^[2] (⟨k, 0⟩, g1) =
      (⟨k + 1, 0⟩, { g1 with shell_fp := ShellFnPtr.shell_state_output,
                               command_fp := none, out := k }) ∧
    cnt_tick^[2] ((cnt_tick^[2] (⟨k, 0⟩, g1)).1, g2) =
      (⟨k + 2, 0⟩, { g2 with shell_fp := ShellFnPtr.shell_state_output,
                               command_fp := none, out := k + 1 }) := by
  refine ⟨?_, ?_, ?_, ?_, ?_⟩
  all_goals simp [cnt_tick, command_cnt, Function.iterate_succ_apply, hg1, hg2]
  ring

/-- Witness for C6 starting from counter value 0. -/
theorem C6_cnt_two_runs_witness :
    (cnt_tick^[1] (⟨0, 0⟩, shell_demo)).2.out = 0 ∧
    (cnt_tick^[1] (⟨0, 0⟩, shell_demo)).1.cnt = 0 ∧
    (cnt_tick^[1] (⟨0, 0⟩, shell_demo)).2.command_fp = some CmdFn.command_flash ∧
    cnt_tick^[2] (⟨0, 0⟩, shell_demo) =
      (⟨0 + 1, 0⟩, { shell_demo with shell_fp := ShellFnPtr.shell_state_output,
                                        command_fp := none, out := 0 }) ∧
    cnt_tick^[2] ((cnt_tick^[2] (⟨0, 0⟩, shell_demo)).1, shell_demo) =
      (⟨0 + 2, 0⟩, { shell_demo with shell_fp := ShellFnPtr.shell_state_output,
                                        command_fp := none, out := 0 + 1 }) :=
  C6_cnt_two_runs 0 shell_demo shell_demo CmdFn.command_flash CmdFn.command_flash rfl rfl

/-! ## command_led_toggle (lines 111-120) -/

/-- One call to `command_led_toggle` (lines 111-120): toggle the pin, hand
`shell_fp` to the output phase, clear the command pointer.  No state machine,
no statics. -/
def command_led_toggle (g : Shell) : Shell × List PinOp :=
  ({ g with pin := !g.pin, shell_fp := ShellFnPtr.shell_state_output,
            command_fp := none },
   [PinOp.toggle])

/-- C9: every invocation of `command_led_toggle` completes in that single
call, unconditionally: it issues exactly one toggle of the LED pin, hands
`shell_fp` to the output phase, clears the command pointer, and leaves the
rest of the shell state untouched. -/
theorem C9_led_toggle_single_call (g : Shell) :
    (command_led_toggle g).1.pin = !g.pin ∧
    (command_led_toggle g).1.shell_fp = ShellFnPtr.shell_state_output ∧
    (command_led_toggle g).1.command_fp = none ∧
    (command_led_toggle g).1.out = g.out ∧
    (command_led_toggle g).1.busy = g.busy ∧
    (command_led_toggle g).2 = [PinOp.toggle] := by
  simp [command_led_toggle]

/-! ## command_load (lines 123-159) -/

/-- The static locals of `command_load`: `cnt`, `state`, `accu` (the local
`k` does not survive a call: it is the index of the inner for-loop). -/
structure LoadSt where
  cnt : Int
  state : Int
  accu : Int
deriving DecidableEq

/-- One call to `command_load` (lines 123-159).  State 0 polls the DMA busy
flag; state 1 formats the counter and increments it; state 2 either finishes
the command when the counter reached 500 or burns time accumulating
`accu += k * cnt` for `k = 0 .. 9999`. -/
def command_load (st : LoadSt) (g : Shell) : LoadSt × Shell :=
  if st.state = 0 then
    (if g.busy = 0 then ⟨st.cnt, 1, st.accu⟩ else st, g)
  else if st.state = 1 then
    (⟨st.cnt + 1, 2, st.accu⟩,
     { g with out := st.cnt, shell_fp := ShellFnPtr.shell_state_output })
  else if st.state = 2 then
    if st.cnt = 500 then
      (⟨0, 0, st.accu⟩,
       { g with shell_fp := ShellFnPtr.shell_state_output, command_fp := none })
    else
      (⟨st.cnt, 0, (List.range 10000).foldl (fun a k => a + (k : Int) * st.cnt) st.accu⟩, g)
  else
    (st, g)

/-- C7: whichever call signals completion establishes the common
postcondition — `command_fp` cleared, `shell_fp` handed to the output phase,
and the static `state` tag reset to 0 — and for each state-machine command
exactly one state performs this transition (state 6 for `command_flash`,
state 1 for `command_cnt`, state 2 with `cnt = 500` for `command_load`;
`command_led_toggle` completes on every call and has no state). -/
theorem C7_completion_postcondition (g : Shell) (c : CmdFn)
    (hg : g.command_fp = some c) :
    (∀ (D : Int) (p : Option Int) (st : FlashSt),
      ((command_flash D p st g).2.1.command_fp = none ↔ st.state = 6) ∧
      (st.state = 6 → command_flash D p st g =
        (⟨0, st.arg, st.delay⟩,
         { g with shell_fp := ShellFnPtr.shell_state_output, command_fp := none },
         []))) ∧
    (∀ st : CntSt,
      ((command_cnt st g).2.command_fp = none ↔ st.state = 1) ∧
      (st.state = 1 → command_cnt st g =
        (⟨st.cnt + 1, 0⟩,
         { g with shell_fp := ShellFnPtr.shell_state_output, command_fp := none }))) ∧
    ((command_led_toggle g).1.command_fp = none ∧
     (command_led_toggle g).1.shell_fp = ShellFnPtr.shell_state_output) ∧
    (∀ st : LoadSt,
      ((command_load st g).2.command_fp = none ↔ st.state = 2 ∧ st.cnt = 500) ∧
      (st.state = 2 ∧ st.cnt = 500 → command_load st g =
        (⟨0, 0, st.accu⟩,
         { g with shell_fp := ShellFnPtr.shell_state_output, command_fp := none }))) := by
  refine ⟨?_, ?_, ?_, ?_⟩
  · intro D p st
    constructor
    · unfold command_flash
      rcases p with _ | v <;> split_ifs <;> simp_all
    · intro h6
      simp [command_flash, h6]
  · intro st
    constructor
    · unfold command_cnt
      split_ifs <;> simp_all
    · intro h1
      simp [command_cnt, h1]
  · simp [command_led_toggle]
  · intro st
    constructor
    · unfold command_load
      split_ifs <;> simp_all
    · rintro ⟨h2, h5⟩
      simp [command_load, h2, h5]

/-- Witness for C7: the postcondition conjunction at a concrete shell state. -/
theorem C7_completion_postcondition_witness :
    (∀ (D : Int) (p : Option Int) (st : FlashSt),
      ((command_flash D p st shell_demo).2.1.command_fp = none ↔ st.state = 6) ∧
      (st.state = 6 → command_flash D p st shell_demo =
        (⟨0, st.arg, st.delay⟩,
         { shell_demo with shell_fp := ShellFnPtr.shell_state_output,
                           command_fp := none },
         []))) ∧
    (∀ st : CntSt,
      ((command_cnt st shell_demo).2.command_fp = none ↔ st.state = 1) ∧
      (st.state = 1 → command_cnt st shell_demo =
        (⟨st.cnt + 1, 0⟩,
         { shell_demo with shell_fp := ShellFnPtr.shell_state_output,
                           command_fp := none }))) ∧
    ((command_led_toggle shell_demo).1.command_fp = none ∧
     (command_led_toggle shell_demo).1.shell_fp = ShellFnPtr.shell_state_output) ∧
    (∀ st : LoadSt,
      ((command_load st shell_demo).2.command_fp = none ↔ st.state = 2 ∧ st.cnt = 500) ∧
      (st.state = 2 ∧ st.cnt = 500 → command_load st shell_demo =
        (⟨0, 0, st.accu⟩,
         { shell_demo with shell_fp := ShellFnPtr.shell_state_output,
                           command_fp := none }))) :=
  C7_completion_postcondition shell_demo CmdFn.command_flash rfl

/-! ## Command blocks (lines 260-285) -/

/-- The three statically declared blocks, used as block references so the
block arrays can point at one another (`CMD_BLOCK level_2_block` etc.). -/
inductive BlockId where
  | root
  | level_1
  | level_2
deriving DecidableEq, Fintype

/-- The second member of `t_shell_block_entry` is a function pointer that is
overloaded: `0` (null), a command function, or — in a title entry — the block
length cast to a pointer by `BLOCK_LEN`. -/
inductive FpField where
  | null
  | cmd (f : CmdFn)
  | block_len (n : Nat)
deriving DecidableEq

/-- One entry of a command block: a label, the overloaded function-pointer
member, and the child-block pointer (`CMD_BLOCK ...` or `0`). -/
structure t_shell_block_entry where
  label : String
  fp : FpField
  sub : Option BlockId
deriving DecidableEq

/-- `level_2_block` (lines 260-265). -/
def level_2_block : List t_shell_block_entry :=
  [⟨"Submenu 2", FpField.block_len 2, none⟩,
   ⟨"load - performance test", FpField.cmd CmdFn.command_load, none⟩,
   ⟨"load - performance test", FpField.cmd CmdFn.command_load, none⟩]

/-- `level_1_block` (lines 267-273). -/
def level_1_block : List t_shell_block_entry :=
  [⟨"Submenu 1", FpField.block_len 3, none⟩,
   ⟨"load - performance test", FpField.cmd CmdFn.command_load, none⟩,
   ⟨"load - performance test", FpField.cmd CmdFn.command_load, none⟩,
   ⟨"sm2 - nested submenu example", FpField.null, some BlockId.level_2⟩]

/-- `root_block` (lines 277-285). -/
def root_block : List t_shell_block_entry :=
  [⟨"STM32", FpField.block_len 5, none⟩,
   ⟨"sm1 - submenu example", FpField.null, some BlockId.level_1⟩,
   ⟨"led - toggles the blue LED", FpField.cmd CmdFn.command_led_toggle, none⟩,
   ⟨"flash N - flash the LED 'N' times", FpField.cmd CmdFn.command_flash, none⟩,
   ⟨"cnt - displays its own call count", FpField.cmd CmdFn.command_cnt, none⟩,
   ⟨"load - performance test", FpField.cmd CmdFn.command_load, none⟩]

/-- Dereference a block pointer. -/
def blockOf : BlockId → List t_shell_block_entry
  | BlockId.root => root_block
  | BlockId.level_1 => level_1_block
  | BlockId.level_2 => level_2_block

/-- Modelled from the spec: `entry_count(block)` (§4.2) — the count declared
in the block's title entry, read in O(1) from the overloaded
function-pointer member, `none` if the first entry is not a title. -/
def entry_count (b : List t_shell_block_entry) : Option Nat :=
  match b with
  | e :: _ =>
    match e.fp with
    | FpField.block_len n => some n
    | _ => none
  | [] => none

/-- Modelled from the spec: `child(block, index)` (§4.2) — bounds-checked
positional access, `none` models `IndexOutOfRange`. -/
def child (b : List t_shell_block_entry) (i : Nat) : Option t_shell_block_entry :=
  b[i]?

/-- Modelled from the spec: `descend(entry)` (§4.2) — the child block of a
submenu entry, `none` for leaves and titles. -/
def descend (e : t_shell_block_entry) : Option BlockId := e.sub

/-- Modelled from the spec: `select(entry)` (§4.2) — the bound command
function of a leaf entry, `none` otherwise (a title's count is not a
command function). -/
def select (e : t_shell_block_entry) : Option CmdFn :=
  match e.fp with
  | FpField.cmd f => some f
  | _ => none

/-- Whether an entry is a title entry (its function-pointer member holds a
`BLOCK_LEN` count). -/
def is_title (e : t_shell_block_entry) : Bool :=
  match e.fp with
  | FpField.block_len _ => true
  | _ => false

/-- Counterexample for C3: the declared count does NOT equal the number of
entries including the title — `root_block` declares 5 but holds 6 entries
(and the sub-blocks are off by one in the same way). -/
theorem C3_counterexample :
    ¬ ∀ b : BlockId, entry_count (blockOf b) = some (blockOf b).length := by
  decide

/-- C3 (amended): for every block of the program, the count declared in the
title entry equals the number of entries physically present EXCLUDING the
title entry itself (root: 5 of 6, level 1: 3 of 4, level 2: 2 of 3). -/
theorem C3_block_counts :
    ∀ b : BlockId, entry_count (blockOf b) = some ((blockOf b).length - 1) := by
  decide

/-- Counterexample for C4: the root block does not have 5 entries — it has
6 (1 title + 5 invocable/submenu entries). -/
theorem C4_counterexample :
    ¬ (root_block.length = 5 ∧ entry_count root_block = some 5 ∧
       ∃ e, child root_block 1 = some e ∧ ∃ bid, descend e = some bid ∧
         entry_count (blockOf bid) = some (blockOf bid).length) := by
  intro h
  exact absurd h.1 (by decide)

/-- C4 (amended): the root block has 6 entries — 1 title, 1 submenu entry
and 4 command leaves — its declared count is 5 (the entries beyond the
title), `child(root, 1)` is the submenu entry, its `descend` yields
`level_1_block`, and that block's declared count 3 again equals its own
entries beyond the title (4 - 1). -/
theorem C4_root_structure :
    root_block.length = 6 ∧
    entry_count root_block = some 5 ∧
    (root_block.filter (fun e => is_title e)).length = 1 ∧
    (root_block.filter (fun e => (select e).isSome)).length = 4 ∧
    (root_block.filter (fun e => (descend e).isSome)).length = 1 ∧
    child root_block 1 =
      some ⟨"sm1 - submenu example", FpField.null, some BlockId.level_1⟩ ∧
    descend ⟨"sm1 - submenu example", FpField.null, some BlockId.level_1⟩ =
      some BlockId.level_1 ∧
    select ⟨"sm1 - submenu example", FpField.null, some BlockId.level_1⟩ = none ∧
    entry_count level_1_block = some (level_1_block.length - 1) := by
  decide

/-- C8: for every entry of every block of the program, `descend` and
`select` are never both non-`none`, and a title entry yields neither a child
block nor a command function. -/
theorem C8_entry_exclusivity :
    ∀ b : BlockId, ∀ e ∈ blockOf b,
      ¬(descend e ≠ none ∧ select e ≠ none) ∧
      (is_title e = true → descend e = none ∧ select e = none) := by
  decide

/-- Witness for C8 at the `led` leaf of the root block. -/
theorem C8_entry_exclusivity_witness :
    ¬(descend ⟨"led - toggles the blue LED", FpField.cmd CmdFn.command_led_toggle,
        none⟩ ≠ none ∧
      select ⟨"led - toggles the blue LED", FpField.cmd CmdFn.command_led_toggle,
        none⟩ ≠ none) ∧
    (is_title ⟨"led - toggles the blue LED", FpField.cmd CmdFn.command_led_toggle,
        none⟩ = true →
      descend ⟨"led - toggles the blue LED", FpField.cmd CmdFn.command_led_toggle,
        none⟩ = none ∧
      select ⟨"led - toggles the blue LED", FpField.cmd CmdFn.command_led_toggle,
        none⟩ = none) :=
  C8_entry_exclusivity BlockId.root
    ⟨"led - toggles the blue LED", FpField.cmd CmdFn.command_led_toggle, none⟩
    (by decide)
